import Mathlib

/-!
Shallow embedding of the LineDrive AI chat session controller.

The repository contains two near-identical React components, each defining a
`ChatInterface` with a message log (`messages`), a draft buffer (`inputValue`)
and a send handler (`handleSend`):

* `src/frontend/src/app/page.tsx` — variant A below.  Its `handleSend` guard is
  only `if (inputValue.trim() === '') return;`; it holds no loading flag.
* `src/unnamed/part_000` — variant B below.  Its guard is
  `if (inputValue.trim() === '' || isLoading) return;`, it sets
  `setIsLoading(true)` after the optimistic append and resets it in a
  `finally` block.

Both variants, on an admitted turn, append a user message whose `text` is the
untrimmed `inputValue`, clear the draft, `fetch` a POST to
`http://localhost:8000/chat?question=${encodeURIComponent(inputValue)}`,
parse the body with `response.json()`, and append an assistant message whose
`text` is `data.answer`; any exception thrown by `fetch` or `json()` is
caught and replaced by a fixed apology message.  The HTTP status code is
never inspected.

Machine-level JS details are embedded as follows: `Date.now()` and
`new Date()` are clock reads, supplied as explicit `Nat` arguments; a JS
value that may be `undefined` (such as `data.answer` when the parsed body
lacks the field) is an `Option String`, `none` standing for `undefined`.
-/

/-- The `sender` field of a message: `'user'` or `'assistant'` in the source. -/
inductive Sender where
  | user
  | assistant
deriving DecidableEq, Repr

/-- A chat message object as built by both components:
`{ id: Date.now(), text, sender, timestamp: new Date() }`.
`text` is `Option String` because the success path stores `data.answer`,
which is `undefined` (`none`) when the parsed JSON body lacks the field. -/
structure Message where
  id : Nat
  text : Option String
  sender : Sender
  timestamp : Nat
deriving DecidableEq, Repr

/-- JavaScript WhiteSpace / LineTerminator code points recognised by
`String.prototype.trim` (the ones below ASCII plus NBSP; the higher Unicode
space separators do not occur in any string this development evaluates). -/
def isJsWhitespace (c : Char) : Bool :=
  c = ' ' || c = '\t' || c = '\n' || c = '\r' ||
  c = '\x0b' || c = '\x0c' || c = '\xa0'

/-- JavaScript `String.prototype.trim`: drop whitespace from both ends. -/
def jsTrim (s : String) : String :=
  ⟨((s.data.dropWhile isJsWhitespace).reverse.dropWhile isJsWhitespace).reverse⟩

/-- Characters `encodeURIComponent` leaves unescaped:
ASCII letters, digits, and `- _ . ! ~ * ' ( )`. -/
def isUriUnreserved (c : Char) : Bool :=
  c.isAlpha || c.isDigit ||
  c = '-' || c = '_' || c = '.' || c = '!' || c = '~' ||
  c = '*' || c = '\x27' || c = '(' || c = ')'

/-- Uppercase hexadecimal digit for `n < 16`. -/
def hexDigit (n : Nat) : Char :=
  if n < 10 then Char.ofNat (48 + n) else Char.ofNat (55 + n)

/-- UTF-8 encoding of a code point, as a list of byte values. -/
def utf8Bytes (n : Nat) : List Nat :=
  if n < 0x80 then [n]
  else if n < 0x800 then [0xC0 + n / 64, 0x80 + n % 64]
  else if n < 0x10000 then
    [0xE0 + n / 4096, 0x80 + (n / 64) % 64, 0x80 + n % 64]
  else
    [0xF0 + n / 262144, 0x80 + (n / 4096) % 64, 0x80 + (n / 64) % 64,
     0x80 + n % 64]

/-- Percent-escape of one byte: `%HH` with uppercase hex. -/
def percentByte (b : Nat) : String :=
  ⟨['%', hexDigit (b / 16), hexDigit (b % 16)]⟩

/-- Percent-escapes of a byte list, concatenated. -/
def percentBytes : List Nat → String
  | [] => ""
  | b :: bs => percentByte b ++ percentBytes bs

/-- `encodeURIComponent` on one character: kept verbatim if unreserved,
otherwise every UTF-8 byte is percent-escaped. -/
def encodeChar (c : Char) : String :=
  if isUriUnreserved c then String.singleton c
  else percentBytes (utf8Bytes c.toNat)

/-- `encodeURIComponent` folded over a character list. -/
def encodeList : List Char → String
  | [] => ""
  | c :: cs => encodeChar c ++ encodeList cs

/-- JavaScript `encodeURIComponent`. -/
def encodeURIComponent (s : String) : String :=
  encodeList s.data

/-- The fixed request target of both variants:
`http://localhost:8000/chat?question=${encodeURIComponent(inputValue)}`. -/
def urlBase : String :=
  "http://localhost:8000/chat?question="

/-- Full URL of the POST request issued for question text `q`. -/
def chatUrl (q : String) : String :=
  urlBase ++ encodeURIComponent q

/-- Text of the seed greeting message, identical in both variants. -/
def greetingText : String :=
  "Hello! I\x27m LineDrive AI, an AI assistant created to answer questions about MLB players. How can I help you today?"

/-- Text of the fixed apology appended when the call throws, identical in
both variants. -/
def errorText : String :=
  "Sorry, I encountered an error. Please try again later."

/-- The seed message `{ id: 1, text: greeting, sender: 'assistant',
timestamp: new Date() }`; `t0` is the mount-time clock read. -/
def greetingMessage (t0 : Nat) : Message :=
  { id := 1, text := some greetingText, sender := Sender.assistant,
    timestamp := t0 }

/-- The optimistic user message `{ id: Date.now(), text: inputValue,
sender: 'user', timestamp: new Date() }` built at clock `t`. -/
def userMessage (t : Nat) (q : String) : Message :=
  { id := t, text := some q, sender := Sender.user, timestamp := t }

/-- How the `await fetch(...)`/`await response.json()` pair settles, as the
`try` block observes it.  `fail` is any exception (network rejection or a
non-parseable body), which lands in the `catch`.  `ok status answer` is a
response whose body parsed; `answer` is the `data.answer` field, `none`
when the field is absent.  The source never reads the status code, but it is
part of the response, so the model carries it. -/
inductive ClientOutcome where
  | fail
  | ok (status : Nat) (answer : Option String)
deriving DecidableEq, Repr

/-- The `text` stored in the appended response message: `data.answer` on a
parsed body, the fixed apology when the call threw. -/
def responseText : ClientOutcome → Option String
  | ClientOutcome.fail => some errorText
  | ClientOutcome.ok _ answer => answer

/-- The response message appended after the call settles, built at clock
`t`. -/
def responseMessage (t : Nat) (o : ClientOutcome) : Message :=
  { id := t, text := responseText o, sender := Sender.assistant,
    timestamp := t }

/-- Controller state of variant A (`src/frontend/src/app/page.tsx`): the
`messages` and `inputValue` React states.  This variant has no loading
flag. -/
structure CtrlA where
  messages : List Message
  inputValue : String
deriving DecidableEq, Repr

/-- Controller state of variant B (`src/unnamed/part_000`): `messages`,
`inputValue` and `isLoading`. -/
structure CtrlB where
  messages : List Message
  inputValue : String
  isLoading : Bool
deriving DecidableEq, Repr

/-- Variant A `handleSend`, run from invocation to settlement of its own
request.  `tUser` and `tResp` are the clock reads at the two message
creations; `o` is how the fetch settles.  Returns the post-state and the URL
of the request issued (`none` when the guard rejected the turn and no
request was made).  The fetch argument is the `inputValue` captured by the
closure before `setInputValue('')`, exactly as in the source. -/
def handleSendA (s : CtrlA) (tUser tResp : Nat) (o : ClientOutcome) :
    CtrlA × Option String :=
  if jsTrim s.inputValue = "" then (s, none)
  else
    let q := s.inputValue
    let s1 : CtrlA :=
      { messages := s.messages ++ [userMessage tUser q], inputValue := "" }
    ({ s1 with messages := s1.messages ++ [responseMessage tResp o] },
     some (chatUrl q))

/-- Variant B `handleSend`, run from invocation to settlement of its own
request.  The guard also rejects while `isLoading`; the `finally` block
resets `isLoading` to `false` on both the success and the catch path. -/
def handleSendB (s : CtrlB) (tUser tResp : Nat) (o : ClientOutcome) :
    CtrlB × Option String :=
  if jsTrim s.inputValue = "" ∨ s.isLoading = true then (s, none)
  else
    let q := s.inputValue
    let s1 : CtrlB :=
      { messages := s.messages ++ [userMessage tUser q], inputValue := "",
        isLoading := true }
    ({ s1 with messages := s1.messages ++ [responseMessage tResp o],
               isLoading := false },
     some (chatUrl q))

example : jsTrim "   " = "" := by decide
example : jsTrim " hi " = "hi" := by decide
example : encodeURIComponent " hi " = "%20hi%20" := by decide
example : encodeURIComponent "hi" = "hi" := by decide

/-- An observable event at the controller boundary.  `setInput` is the
textarea `onChange` (the spec's `updateDraft`); `send` is an invocation of
`handleSend` up to its suspension point (`await fetch`), with `time` the
clock read for the optimistic user message; `settle` is the resumption of
one outstanding `handleSend` continuation, with `time` the clock read for
the response message and `o` how its fetch settled. -/
inductive Event where
  | setInput (t : String)
  | send (time : Nat)
  | settle (time : Nat) (o : ClientOutcome)
deriving DecidableEq, Repr

/-- Session state of variant A: the controller state plus the number of
requests currently in flight.  The count is operational bookkeeping — the
page.tsx component stores no such flag — recording how many `handleSend`
continuations are suspended at their `await`. -/
structure SessA where
  messages : List Message
  inputValue : String
  inflight : Nat
deriving DecidableEq, Repr

/-- Session state of variant B: controller state (including the `isLoading`
React state) plus the in-flight bookkeeping count. -/
structure SessB where
  messages : List Message
  inputValue : String
  isLoading : Bool
  inflight : Nat
deriving DecidableEq, Repr

/-- Variant A small-step transition.  `send`: the guard is only
`inputValue.trim() === ''`; an admitted send appends the user message,
clears the draft and issues a request.  `settle`: if a request is
outstanding, its continuation appends the response message (built from the
captured outcome). -/
def stepA (s : SessA) : Event → SessA
  | Event.setInput t => { s with inputValue := t }
  | Event.send time =>
      if jsTrim s.inputValue = "" then s
      else
        { messages := s.messages ++ [userMessage time s.inputValue],
          inputValue := "", inflight := s.inflight + 1 }
  | Event.settle time o =>
      if s.inflight = 0 then s
      else
        { s with messages := s.messages ++ [responseMessage time o],
                 inflight := s.inflight - 1 }

/-- Variant B small-step transition.  The `send` guard additionally rejects
while `isLoading`; an admitted send sets `isLoading := true`; a settling
continuation runs its `finally`, resetting `isLoading := false`. -/
def stepB (s : SessB) : Event → SessB
  | Event.setInput t => { s with inputValue := t }
  | Event.send time =>
      if jsTrim s.inputValue = "" ∨ s.isLoading = true then s
      else
        { messages := s.messages ++ [userMessage time s.inputValue],
          inputValue := "", isLoading := true, inflight := s.inflight + 1 }
  | Event.settle time o =>
      if s.inflight = 0 then s
      else
        { s with messages := s.messages ++ [responseMessage time o],
                 isLoading := false, inflight := s.inflight - 1 }

/-- Mount-time state of variant A: the seed greeting alone, empty draft. -/
def initA (t0 : Nat) : SessA :=
  { messages := [greetingMessage t0], inputValue := "", inflight := 0 }

/-- Mount-time state of variant B: seed greeting, empty draft,
`isLoading = false`. -/
def initB (t0 : Nat) : SessB :=
  { messages := [greetingMessage t0], inputValue := "", isLoading := false,
    inflight := 0 }

/-- Variant A session after a sequence of events from mount. -/
def runA (t0 : Nat) (es : List Event) : SessA :=
  es.foldl stepA (initA t0)

/-- Variant B session after a sequence of events from mount. -/
def runB (t0 : Nat) (es : List Event) : SessB :=
  es.foldl stepB (initB t0)

/-- A request is in flight — the condition the spec calls `pending` (true
from the moment a turn is submitted until its outcome is applied).  Variant
A stores no corresponding flag; this predicate is over the bookkeeping
count. -/
def requestInFlightA (s : SessA) : Prop :=
  0 < s.inflight

example :
    (runA 0 [Event.setInput "a", Event.send 1,
             Event.setInput "b"]).inflight = 1 := by decide
example :
    (runA 0 [Event.setInput "a", Event.send 1, Event.setInput "b",
             Event.send 2]).messages.length = 3 := by decide
example :
    (runB 0 [Event.setInput "a", Event.send 1, Event.setInput "b",
             Event.send 2]).messages.length = 2 := by decide

/-- Claim C1, amended part.  In the part_000 variant the guard
`inputValue.trim() === '' || isLoading` makes `handleSend` a no-op whenever
`isLoading` (the pending flag) is true: no message appended, no request
issued, no state change — at both the whole-turn and the small-step level. -/
theorem C1_part000_pending_gate :
    (∀ (s : CtrlB), s.isLoading = true → ∀ (tUser tResp : Nat)
       (o : ClientOutcome), handleSendB s tUser tResp o = (s, none)) ∧
    (∀ (s : SessB), s.isLoading = true → ∀ (t : Nat),
       stepB s (Event.send t) = s) := by
  constructor
  · intro s h tUser tResp o
    simp [handleSendB, h]
  · intro s h t
    simp [stepB, h]

/-- Witness for C1: the gate theorem applied at concrete pending states. -/
theorem C1_part000_pending_gate_witness :
    handleSendB ⟨[greetingMessage 0], "x", true⟩ 1 2 ClientOutcome.fail
      = (⟨[greetingMessage 0], "x", true⟩, none) ∧
    stepB ⟨[greetingMessage 0], "x", true, 1⟩ (Event.send 5)
      = ⟨[greetingMessage 0], "x", true, 1⟩ :=
  ⟨C1_part000_pending_gate.1 ⟨[greetingMessage 0], "x", true⟩ rfl 1 2
     ClientOutcome.fail,
   C1_part000_pending_gate.2 ⟨[greetingMessage 0], "x", true, 1⟩ rfl 5⟩

/-- Counterexample to claim C1 as stated.  In the page.tsx variant there is
no pending gate at all: from mount, type `"a"`, send (a request is now in
flight — the spec's `pending`), type `"b"`; calling `handleSend` again
appends a second user message and issues a second request, mutating the
log while pending. -/
theorem C1_counterexample :
    requestInFlightA
      (runA 0 [Event.setInput "a", Event.send 1, Event.setInput "b"]) ∧
    (stepA (runA 0 [Event.setInput "a", Event.send 1, Event.setInput "b"])
        (Event.send 2)).messages
      ≠ (runA 0 [Event.setInput "a", Event.send 1,
          Event.setInput "b"]).messages := by
  constructor
  · unfold requestInFlightA
    decide
  · decide

/-- Claim C2, amended part.  When no request is in flight (part_000's
`isLoading` is false) the two variants run one whole turn identically: same
message log, same draft, same issued request. -/
theorem C2_equiv_when_idle (msgs : List Message) (input : String)
    (tUser tResp : Nat) (o : ClientOutcome) :
    (handleSendA ⟨msgs, input⟩ tUser tResp o).1.messages
      = (handleSendB ⟨msgs, input, false⟩ tUser tResp o).1.messages ∧
    (handleSendA ⟨msgs, input⟩ tUser tResp o).1.inputValue
      = (handleSendB ⟨msgs, input, false⟩ tUser tResp o).1.inputValue ∧
    (handleSendA ⟨msgs, input⟩ tUser tResp o).2
      = (handleSendB ⟨msgs, input, false⟩ tUser tResp o).2 := by
  by_cases h : jsTrim input = "" <;>
    simp [handleSendA, handleSendB, h]

/-- Counterexample to claim C2 as stated: the variants are not equivalent on
all event sequences.  Submitting a second turn while the first is still in
flight is admitted by page.tsx but rejected by part_000's `isLoading` gate,
so the logs diverge. -/
theorem C2_counterexample :
    ((runA 0 [Event.setInput "a", Event.send 1, Event.setInput "b",
        Event.send 2]).messages.map Message.text
      = [some greetingText, some "a", some "b"]) ∧
    ((runB 0 [Event.setInput "a", Event.send 1, Event.setInput "b",
        Event.send 2]).messages.map Message.text
      = [some greetingText, some "a"]) ∧
    ((runA 0 [Event.setInput "a", Event.send 1, Event.setInput "b",
        Event.send 2]).messages
      ≠ (runB 0 [Event.setInput "a", Event.send 1, Event.setInput "b",
          Event.send 2]).messages.map id) := by
  refine ⟨by decide, by decide, by decide⟩

lemma utf8Bytes_ne_nil (n : Nat) : utf8Bytes n ≠ [] := by
  unfold utf8Bytes
  split
  · simp
  split
  · simp
  split <;> simp

lemma percentByte_length (b : Nat) : (percentByte b).length = 3 := rfl

lemma percentBytes_cons_length_pos (b : Nat) (bs : List Nat) :
    0 < (percentBytes (b :: bs)).length := by
  show 0 < (percentByte b ++ percentBytes bs).length
  rw [String.length_append, percentByte_length]
  omega

lemma encodeChar_length_pos (c : Char) : 0 < (encodeChar c).length := by
  unfold encodeChar
  split
  · simp [String.singleton, String.push, String.length]
  · have h := utf8Bytes_ne_nil c.toNat
    cases hb : utf8Bytes c.toNat with
    | nil => exact absurd hb h
    | cons b bs => exact percentBytes_cons_length_pos b bs

lemma encodeList_cons_length_pos (c : Char) (cs : List Char) :
    0 < (encodeList (c :: cs)).length := by
  show 0 < (encodeChar c ++ encodeList cs).length
  rw [String.length_append]
  have := encodeChar_length_pos c
  omega

lemma encodeURIComponent_length_pos (s : String) (h : s ≠ "") :
    0 < (encodeURIComponent s).length := by
  cases s with
  | mk data =>
    cases data with
    | nil => exact absurd (by decide) h
    | cons c cs => exact encodeList_cons_length_pos c cs

lemma chatUrl_ne_chatUrl_empty (q : String) (h : q ≠ "") :
    chatUrl q ≠ chatUrl "" := by
  intro he
  have h1 : (chatUrl q).length = (chatUrl "").length := by rw [he]
  have h2 := encodeURIComponent_length_pos q h
  have h3 : encodeURIComponent "" = "" := by decide
  simp only [chatUrl, String.length_append, h3] at h1
  have h4 : ("" : String).length = 0 := rfl
  omega

/-- Counterexample to claim C3 as stated.  The source never inspects the
HTTP status code and displays `data.answer` as extracted: a non-success
status with a parseable body shows the body's answer, and a body lacking
the field shows the extracted `undefined` — neither turn gets the apology. -/
theorem C3_counterexample :
    ((handleSendB ⟨[greetingMessage 0], "q", false⟩ 1 2
        (ClientOutcome.ok 500 (some "oops"))).1.messages.map Message.text
      = [some greetingText, some "q", some "oops"]) ∧
    ((handleSendB ⟨[greetingMessage 0], "q", false⟩ 1 2
        (ClientOutcome.ok 200 none)).1.messages.map Message.text
      = [some greetingText, some "q", none]) ∧
    some "oops" ≠ some errorText ∧
    (none : Option String) ≠ some errorText := by
  refine ⟨by decide, by decide, by decide, by decide⟩

/-- Claim C3, amended part.  Only a thrown call (fetch rejection or a
non-parseable body) is treated as failure and produces the fixed apology;
when the body parses, the extracted `answer` value — whatever the status
code and whether or not the field exists — is displayed as the assistant
text. -/
theorem C3_thrown_call_only (s : CtrlB) (tUser tResp : Nat)
    (hq : jsTrim s.inputValue ≠ "") (hl : s.isLoading = false) :
    ((handleSendB s tUser tResp ClientOutcome.fail).1.messages
       = s.messages ++ [userMessage tUser s.inputValue,
           { id := tResp, text := some errorText,
             sender := Sender.assistant, timestamp := tResp }]) ∧
    ∀ (status : Nat) (answer : Option String),
      (handleSendB s tUser tResp (ClientOutcome.ok status answer)).1.messages
        = s.messages ++ [userMessage tUser s.inputValue,
            { id := tResp, text := answer,
              sender := Sender.assistant, timestamp := tResp }] := by
  constructor
  · simp [handleSendB, hq, hl, responseMessage, responseText]
  · intro status answer
    simp [handleSendB, hq, hl, responseMessage, responseText]

/-- Witness for C3: the amended theorem applied at a concrete state and a
concrete malformed-but-parsed response. -/
theorem C3_thrown_call_only_witness :
    jsTrim ("q" : String) ≠ "" ∧
    (handleSendB ⟨[greetingMessage 0], "q", false⟩ 1 2
        (ClientOutcome.ok 500 (some "oops"))).1.messages
      = [greetingMessage 0] ++ [userMessage 1 "q",
          { id := 2, text := some "oops", sender := Sender.assistant,
            timestamp := 2 }] :=
  ⟨by decide,
   (C3_thrown_call_only ⟨[greetingMessage 0], "q", false⟩ 1 2 (by decide)
      rfl).2 500 (some "oops")⟩

/-- Claim C4: from the seed state, submitting the scenario question against
a client that resolves with answer `"Shohei Ohtani"` yields exactly the
seed greeting, the user message with the exact untrimmed text, and the
assistant answer verbatim; the loading flag ends false and the request went
to the encoded question URL. -/
theorem C4_success_scenario (t0 tUser tResp : Nat) :
    handleSendB
        { messages := [greetingMessage t0],
          inputValue := "Who hit the most home runs in 2023?",
          isLoading := false } tUser tResp
        (ClientOutcome.ok 200 (some "Shohei Ohtani"))
      = ({ messages := [greetingMessage t0,
             userMessage tUser "Who hit the most home runs in 2023?",
             { id := tResp, text := some "Shohei Ohtani",
               sender := Sender.assistant, timestamp := tResp }],
           inputValue := "", isLoading := false },
         some (chatUrl "Who hit the most home runs in 2023?")) := by
  simp [handleSendB, responseMessage, responseText,
    (by decide : jsTrim "Who hit the most home runs in 2023?" ≠ "")]

/-- Claim C5: an admitted turn whose call throws appends exactly one user
message and one assistant message with the fixed apology text, the model
returns normally (the `catch` swallows the failure), and the loading flag
is reset to false for every outcome (the `finally` block). -/
theorem C5_failure_turn :
    (∀ (s : CtrlB) (tUser tResp : Nat), jsTrim s.inputValue ≠ "" →
       s.isLoading = false →
       ((handleSendB s tUser tResp ClientOutcome.fail).1
          = { messages := s.messages ++ [userMessage tUser s.inputValue,
                { id := tResp, text := some errorText,
                  sender := Sender.assistant, timestamp := tResp }],
              inputValue := "", isLoading := false }) ∧
       ∀ (o : ClientOutcome),
         (handleSendB s tUser tResp o).1.isLoading = false) ∧
    (∀ (s : CtrlA) (tUser tResp : Nat), jsTrim s.inputValue ≠ "" →
       (handleSendA s tUser tResp ClientOutcome.fail).1
         = { messages := s.messages ++ [userMessage tUser s.inputValue,
               { id := tResp, text := some errorText,
                 sender := Sender.assistant, timestamp := tResp }],
             inputValue := "" }) := by
  constructor
  · intro s tUser tResp hq hl
    constructor
    · simp [handleSendB, hq, hl, responseMessage, responseText]
    · intro o
      simp [handleSendB, hq, hl]
  · intro s tUser tResp hq
    simp [handleSendA, hq, responseMessage, responseText]

/-- Witness for C5: the theorem applied at a concrete admitted state whose
call fails. -/
theorem C5_failure_turn_witness :
    jsTrim ("q" : String) ≠ "" ∧
    (handleSendB ⟨[greetingMessage 0], "q", false⟩ 1 2
        ClientOutcome.fail).1
      = { messages := [greetingMessage 0] ++ [userMessage 1 "q",
            { id := 2, text := some errorText,
              sender := Sender.assistant, timestamp := 2 }],
          inputValue := "", isLoading := false } :=
  ⟨by decide,
   (C5_failure_turn.1 ⟨[greetingMessage 0], "q", false⟩ 1 2 (by decide)
      rfl).1⟩

/-- Claim C6: with an empty or whitespace-only draft, `handleSend` in both
variants returns the state unchanged and issues no request — no message,
no log or flag mutation, and (being a total function) no surfaced
exception. -/
theorem C6_blank_draft_noop :
    (∀ (s : CtrlA), s.inputValue = "" ∨ s.inputValue = "   " →
       ∀ (tUser tResp : Nat) (o : ClientOutcome),
         handleSendA s tUser tResp o = (s, none)) ∧
    (∀ (s : CtrlB), s.inputValue = "" ∨ s.inputValue = "   " →
       ∀ (tUser tResp : Nat) (o : ClientOutcome),
         handleSendB s tUser tResp o = (s, none)) := by
  constructor
  · intro s h tUser tResp o
    have h1 : jsTrim s.inputValue = "" := by
      rcases h with h | h <;> rw [h] <;> decide
    simp [handleSendA, h1]
  · intro s h tUser tResp o
    have h1 : jsTrim s.inputValue = "" := by
      rcases h with h | h <;> rw [h] <;> decide
    simp [handleSendB, h1]

/-- Witness for C6: both no-op parts applied at concrete blank drafts. -/
theorem C6_blank_draft_noop_witness :
    handleSendA ⟨[greetingMessage 0], "   "⟩ 1 2 ClientOutcome.fail
      = (⟨[greetingMessage 0], "   "⟩, none) ∧
    handleSendB ⟨[greetingMessage 0], "", false⟩ 1 2
        (ClientOutcome.ok 200 (some "x"))
      = (⟨[greetingMessage 0], "", false⟩, none) :=
  ⟨C6_blank_draft_noop.1 ⟨[greetingMessage 0], "   "⟩ (Or.inr rfl) 1 2
     ClientOutcome.fail,
   C6_blank_draft_noop.2 ⟨[greetingMessage 0], "", false⟩ (Or.inl rfl) 1 2
     (ClientOutcome.ok 200 (some "x"))⟩

/-- Counterexample to claim C7 as stated.  The source encodes the raw
`inputValue` without trimming: submitting `" hi "` issues a request whose
query is `%20hi%20`, not the encoding `hi` of the trimmed text. -/
theorem C7_counterexample :
    ((handleSendB ⟨[greetingMessage 0], " hi ", false⟩ 1 2
        (ClientOutcome.ok 200 (some "x"))).2 = some (chatUrl " hi ")) ∧
    chatUrl " hi " = urlBase ++ "%20hi%20" ∧
    chatUrl " hi " ≠ urlBase ++ encodeURIComponent (jsTrim " hi ") := by
  refine ⟨by decide, by decide, by decide⟩

/-- Claim C7, amended part: for every admitted turn the question in the
request is the submitted text URL-encoded as captured, with no trimming
applied before encoding. -/
theorem C7_untrimmed_encoding (s : CtrlB) (tUser tResp : Nat)
    (o : ClientOutcome) (hq : jsTrim s.inputValue ≠ "")
    (hl : s.isLoading = false) :
    (handleSendB s tUser tResp o).2
      = some (urlBase ++ encodeURIComponent s.inputValue) := by
  simp [handleSendB, hq, hl, chatUrl]

/-- Witness for C7: the amended theorem applied at a concrete admitted
state. -/
theorem C7_untrimmed_encoding_witness :
    jsTrim (" hi " : String) ≠ "" ∧
    (handleSendB ⟨[greetingMessage 0], " hi ", false⟩ 1 2
        ClientOutcome.fail).2
      = some (urlBase ++ encodeURIComponent " hi ") :=
  ⟨by decide,
   C7_untrimmed_encoding ⟨[greetingMessage 0], " hi ", false⟩ 1 2
     ClientOutcome.fail (by decide) rfl⟩

/-- Claim C10: the request carries the draft as captured at submission.
The issued URL encodes the pre-submission `inputValue`, the post-state
draft is cleared, and the request can never be the one built from the
cleared (empty) draft. -/
theorem C10_captured_question (s : CtrlB) (tUser tResp : Nat)
    (o : ClientOutcome) (hq : jsTrim s.inputValue ≠ "")
    (hl : s.isLoading = false) :
    ((handleSendB s tUser tResp o).2 = some (chatUrl s.inputValue)) ∧
    ((handleSendB s tUser tResp o).1.inputValue = "") ∧
    (handleSendB s tUser tResp o).2 ≠ some (chatUrl "") := by
  have hs : s.inputValue ≠ "" := by
    intro he
    apply hq
    rw [he]
    decide
  have h2 := chatUrl_ne_chatUrl_empty s.inputValue hs
  refine ⟨?_, ?_, ?_⟩
  · simp [handleSendB, hq, hl]
  · simp [handleSendB, hq, hl]
  · simp [handleSendB, hq, hl, h2]

/-- Witness for C10: the theorem applied at a concrete admitted state. -/
theorem C10_captured_question_witness :
    jsTrim ("hi" : String) ≠ "" ∧
    (handleSendB ⟨[greetingMessage 0], "hi", false⟩ 1 2
        ClientOutcome.fail).2 = some (chatUrl "hi") :=
  ⟨by decide,
   (C10_captured_question ⟨[greetingMessage 0], "hi", false⟩ 1 2
      ClientOutcome.fail (by decide) rfl).1⟩

lemma stepB_append_only (s : SessB) (e : Event) :
    ∃ tail, (stepB s e).messages = s.messages ++ tail := by
  cases e with
  | setInput t => exact ⟨[], by simp [stepB]⟩
  | send time =>
      simp only [stepB]
      by_cases h : jsTrim s.inputValue = "" ∨ s.isLoading = true
      · rw [if_pos h]
        exact ⟨[], by simp⟩
      · rw [if_neg h]
        exact ⟨[userMessage time s.inputValue], rfl⟩
  | settle time o =>
      simp only [stepB]
      by_cases h : s.inflight = 0
      · rw [if_pos h]
        exact ⟨[], by simp⟩
      · rw [if_neg h]
        exact ⟨[responseMessage time o], rfl⟩

lemma runB_first_message (t0 : Nat) (es : List Event) :
    (runB t0 es).messages.head? = some (greetingMessage t0) := by
  suffices h : ∀ (s : SessB),
      s.messages.head? = some (greetingMessage t0) →
      (es.foldl stepB s).messages.head? = some (greetingMessage t0) by
    exact h (initB t0) rfl
  induction es with
  | nil => intro s hs; exact hs
  | cons e rest ih =>
      intro s hs
      apply ih
      obtain ⟨tail, ht⟩ := stepB_append_only s e
      rw [ht]
      cases hm : s.messages with
      | nil => rw [hm] at hs; simp at hs
      | cons a l =>
          rw [hm] at hs
          simp at hs
          simp [hs]

/-- Claim C8 fails on the code: ids come from `Date.now()`, so a turn whose
user message and response message are both created at the same clock value
(the same millisecond, here 5) produces two distinct log positions with the
same id.  The spec requires ids to be unique within a session. -/
theorem C8_duplicate_ids :
    ((runB 0 [Event.setInput "a", Event.send 5,
        Event.settle 5 (ClientOutcome.ok 200 (some "x"))]).messages.map
        Message.id = [1, 5, 5]) ∧
    ¬ ((runB 0 [Event.setInput "a", Event.send 5,
        Event.settle 5 (ClientOutcome.ok 200 (some "x"))]).messages.map
        Message.id).Nodup := by
  refine ⟨by decide, by decide⟩

/-- Claim C9: in every reachable part_000 session state the log is
non-empty with the fixed seed greeting as its first message, and every
controller event is append-only on the log — the old message sequence is
an initial segment of the new one. -/
theorem C9_greeting_and_append_only (t0 : Nat) (es : List Event) :
    (runB t0 es).messages ≠ [] ∧
    (runB t0 es).messages.head? = some (greetingMessage t0) ∧
    ∀ (e : Event), ∃ tail,
      (stepB (runB t0 es) e).messages = (runB t0 es).messages ++ tail := by
  have h := runB_first_message t0 es
  refine ⟨?_, h, fun e => stepB_append_only (runB t0 es) e⟩
  intro hnil
  rw [hnil] at h
  simp at h
